import Mathlib

/-!
Verification development for the kernel taint query utility
(src/src/taintinfo.cpp). The flag table, the query parser, the
analyzer and the renderer are embedded as executable Lean functions
and the documented properties are proved about them.
-/

namespace TaintInfo

/-- Severity level of a taint flag (enum class `taint_level`). -/
inductive taint_level where
  | INFO
  | WARN
  | ALERT
deriving DecidableEq

/-- One entry of the taint flag table (`struct taint_info`).
The C pointer `off_description` that may be null is modelled by an
`Option String`; `on_description` is always present. -/
structure taint_info where
  flag_shift : Nat
  level : taint_level
  flag_off_char : Char
  flag_on_char : Char
  off_description : Option String
  on_description : String
deriving DecidableEq

/-- The spacer character used for flags without an off-character. -/
def SPACER : Char := '.'

/-- The hexadecimal digit alphabet (`HEX_CHARS`). -/
def HEX_CHARS : List Char :=
  ['0', '1', '2', '3', '4', '5', '6', '7', '8', '9', 'A', 'B', 'C', 'D', 'E', 'F']

/-- Exit code for normal termination (`EXIT_NORM`). -/
def EXIT_NORM : Nat := 0

/-- Exit code for generic errors (`EXIT_ERR_GENERIC`). -/
def EXIT_ERR_GENERIC : Nat := 1

/-- Exit code for allocation failure (`EXIT_ERR_MEM_ALLOC`). -/
def EXIT_ERR_MEM_ALLOC : Nat := 2

/-- The static table `TAINT_FLAGS`, transcribed entry by entry. -/
def TAINT_FLAGS : List taint_info :=
  [ { flag_shift := 0, level := .INFO, flag_off_char := 'G', flag_on_char := 'P',
      off_description := some "Only GPL modules were loaded",
      on_description := "Proprietary modules were loaded" },
    { flag_shift := 1, level := .WARN, flag_off_char := SPACER, flag_on_char := 'F',
      off_description := none,
      on_description := "Module was force loaded (e.g., insmod -f)" },
    { flag_shift := 2, level := .WARN, flag_off_char := SPACER, flag_on_char := 'S',
      off_description := none,
      on_description := "SMP kernel oops on an officially SMP incapable processor" },
    { flag_shift := 3, level := .ALERT, flag_off_char := SPACER, flag_on_char := 'R',
      off_description := none,
      on_description := "Module was force unloaded (e.g., rmmod -f)" },
    { flag_shift := 4, level := .ALERT, flag_off_char := SPACER, flag_on_char := 'M',
      off_description := none,
      on_description := "Processor reported a Machine Check Exception (hardware error)" },
    { flag_shift := 5, level := .ALERT, flag_off_char := SPACER, flag_on_char := 'B',
      off_description := none,
      on_description := "Bad memory page referenced, or unexpected page flags encountered (possible hardware error)" },
    { flag_shift := 6, level := .WARN, flag_off_char := SPACER, flag_on_char := 'U',
      off_description := none,
      on_description := "Taint requested by a userspace application" },
    { flag_shift := 7, level := .ALERT, flag_off_char := SPACER, flag_on_char := 'D',
      off_description := none,
      on_description := "Kernel OOPS or BUG triggered taint" },
    { flag_shift := 8, level := .WARN, flag_off_char := SPACER, flag_on_char := 'A',
      off_description := none,
      on_description := "ACPI Differentiated System Description Table overriden by user" },
    { flag_shift := 9, level := .WARN, flag_off_char := SPACER, flag_on_char := 'W',
      off_description := none,
      on_description := "Kernel warning triggered taint" },
    { flag_shift := 10, level := .WARN, flag_off_char := SPACER, flag_on_char := 'C',
      off_description := none,
      on_description := "Module from drivers/staging was loaded" },
    { flag_shift := 11, level := .WARN, flag_off_char := SPACER, flag_on_char := 'I',
      off_description := none,
      on_description := "Workaround for a bug in platform firmware was applied" },
    { flag_shift := 12, level := .INFO, flag_off_char := SPACER, flag_on_char := 'O',
      off_description := none,
      on_description := "Externally-built (out-of-tree) module was loaded" },
    { flag_shift := 13, level := .INFO, flag_off_char := SPACER, flag_on_char := 'E',
      off_description := none,
      on_description := "Unsigned module was loaded" },
    { flag_shift := 14, level := .ALERT, flag_off_char := SPACER, flag_on_char := 'L',
      off_description := none,
      on_description := "Soft lockup occurred" },
    { flag_shift := 15, level := .WARN, flag_off_char := SPACER, flag_on_char := 'K',
      off_description := none,
      on_description := "Kernel was live-patched" },
    { flag_shift := 16, level := .WARN, flag_off_char := SPACER, flag_on_char := 'X',
      off_description := none,
      on_description := "Auxiliary taint (depending on Linux distribution)" },
    { flag_shift := 17, level := .INFO, flag_off_char := SPACER, flag_on_char := 'T',
      off_description := none,
      on_description := "Kernel was built with the struct randomization plugin" } ]

/-- The function `get_flag_value`: a 64-bit shift of the constant 1.
All shifts used by the table are below 18, so the reduction modulo
2 to the 64 never truncates on the actual arguments. -/
def get_flag_value (flag_shift : Nat) : Nat :=
  (1 <<< flag_shift) % 2 ^ 64

/-- The C-locale `std::toupper` on single characters as applied by
`taint_query` to every query character. -/
def toupper (c : Char) : Char :=
  if 'a' ≤ c ∧ c ≤ 'z' then Char.ofNat (c.toNat - 32) else c

/-- Outcome of the inner while loop of the first pass of `taint_query`
for one (already upper-cased) query character: either the character is
the on-character of some entry (the loop breaks after OR-ing the flag
value), or it is the off-character of some entry (the loop breaks with
no effect), or the loop falls off the end of the table. -/
inductive scan_result where
  | setBit (value : Nat)
  | offMatch
  | unknown
deriving DecidableEq

/-- The inner while loop of the first pass of `taint_query`, scanning
the table entries in order for an upper-cased query character. -/
def scan_entries : List taint_info → Char → scan_result
  | [], _ => .unknown
  | entry :: rest, c =>
    if c = entry.flag_on_char then
      .setBit (get_flag_value entry.flag_shift)
    else if entry.flag_off_char ≠ SPACER ∧ c = entry.flag_off_char then
      .offMatch
    else
      scan_entries rest c

/-- Effect of one query character on the accumulator `taint_status`
in the first pass of `taint_query`. -/
def taint_query_step (acc : Nat) (c : Char) : Nat :=
  match scan_entries TAINT_FLAGS (toupper c) with
  | .setBit value => acc ||| value
  | _ => acc

/-- The value accumulated into `taint_status` by the first pass of
`taint_query` over the whole query string. -/
def taint_query_acc (query_input : List Char) : Nat :=
  query_input.foldl taint_query_step 0

/-- The warning emitted (if any) by the first pass of `taint_query`
for one query character: an unknown character is reported with its
upper-cased form. -/
def unknown_warning (c : Char) : Option Char :=
  match scan_entries TAINT_FLAGS (toupper c) with
  | .unknown => some (toupper c)
  | _ => none

/-- The sequence of unknown-flag warnings emitted by the first pass
of `taint_query`, one entry per offending input character. -/
def taint_query_unknown_warnings (query_input : List Char) : List Char :=
  query_input.filterMap unknown_warning

/-- The conflict test of the second pass of `taint_query` for one
query character and one table entry; a hit reports the pair of the
on-character and the off-character of the entry. -/
def conflict_check (status : Nat) (c : Char) (entry : taint_info) : Option (Char × Char) :=
  if entry.flag_off_char ≠ SPACER ∧ toupper c = entry.flag_off_char ∧
      status &&& get_flag_value entry.flag_shift = get_flag_value entry.flag_shift then
    some (entry.flag_on_char, entry.flag_off_char)
  else
    none

/-- The sequence of conflict warnings emitted by the second pass of
`taint_query`: the outer loop runs over the query characters, the
inner loop over the table entries, against the fully accumulated
`taint_status` of the first pass. -/
def taint_query_conflicts (query_input : List Char) : List (Char × Char) :=
  query_input.flatMap fun c =>
    TAINT_FLAGS.filterMap (conflict_check (taint_query_acc query_input) c)

/-- The flag character printed by `taint_analyze` for one entry of the
summary line: the on-character when the flag is set, otherwise the
off-character (which is the spacer for most entries). -/
def summary_char (status : Nat) (entry : taint_info) : Char :=
  if status &&& get_flag_value entry.flag_shift = get_flag_value entry.flag_shift then
    entry.flag_on_char
  else
    entry.flag_off_char

/-- The flag characters of the summary line printed by `taint_analyze`,
one per table entry, in table order (color escape sequences elided). -/
def taint_analyze_summary (status : Nat) : List Char :=
  TAINT_FLAGS.map (summary_char status)

/-- One rendered description line, either of the detail list printed by
`taint_analyze` or of the listing printed by `taint_list` (color escape
sequences and the surrounding punctuation elided): the flag character,
the description text, the numeric flag value, and whether the line is
an unset-description line. -/
structure detail_line where
  flag_char : Char
  description : String
  value : Nat
  unset : Bool
deriving DecidableEq

/-- The detail line printed by `taint_analyze` for one table entry, if
any: the on-description when the flag is set, else the off-description
when the entry has an off-character and an off-description. -/
def taint_analyze_detail (status : Nat) (entry : taint_info) : Option detail_line :=
  if status &&& get_flag_value entry.flag_shift = get_flag_value entry.flag_shift then
    some { flag_char := entry.flag_on_char, description := entry.on_description,
           value := get_flag_value entry.flag_shift, unset := false }
  else if entry.flag_off_char ≠ SPACER ∧ entry.off_description.isSome then
    some { flag_char := entry.flag_off_char, description := entry.off_description.getD "",
           value := get_flag_value entry.flag_shift, unset := true }
  else
    none

/-- The detail list printed by `taint_analyze`, in table order. -/
def taint_analyze_details (status : Nat) : List detail_line :=
  TAINT_FLAGS.filterMap (taint_analyze_detail status)

/-- Whether `taint_analyze` prints the final line
"(Kernel is not tainted)": it does so exactly when the status is 0. -/
def taint_analyze_prints_not_tainted (status : Nat) : Bool :=
  status == 0

/-- The lines printed by `taint_list`, in table order: for each entry
the optional unset-description line first, then the set-description
line. -/
def taint_list_lines : List detail_line :=
  TAINT_FLAGS.flatMap fun entry =>
    (if entry.flag_off_char ≠ SPACER ∧ entry.off_description.isSome then
      [{ flag_char := entry.flag_off_char, description := entry.off_description.getD "",
         value := get_flag_value entry.flag_shift, unset := true }]
    else
      []) ++
    [{ flag_char := entry.flag_on_char, description := entry.on_description,
       value := get_flag_value entry.flag_shift, unset := false }]

/-- The loop body of `print_hex`: in each of the sixteen iterations the
top nibble of the 64-bit remainder selects a digit and the remainder is
shifted left by four bits (with 64-bit truncation). -/
def print_hex_loop : Nat → Nat → List Char
  | _, 0 => []
  | remainder, counter + 1 =>
    HEX_CHARS.getD (remainder >>> 60) '0' ::
      print_hex_loop ((remainder <<< 4) % 2 ^ 64) counter

/-- The sixteen hexadecimal digit characters printed by `print_hex`. -/
def print_hex (value : Nat) : List Char :=
  print_hex_loop value 16

/-- The numeric value denoted by a list of hexadecimal digit
characters read most-significant first. -/
def hex_value : List Char → Nat
  | [] => 0
  | c :: rest => HEX_CHARS.indexOf c * 16 ^ rest.length + hex_value rest

/-- Outcome of `taint_load`: success with the parsed value, or one of
the three failure modes (file not openable, read failure, contents not
parsable as an unsigned 64-bit integer). -/
inductive load_outcome where
  | ok (value : Nat)
  | openFail
  | readFail
  | parseFail
deriving DecidableEq

/-- The boolean result of `taint_load`, true exactly on success. -/
def taint_load_rc : load_outcome → Bool
  | .ok _ => true
  | _ => false

/-- The command word `list` (`PRM_LIST`). -/
def PRM_LIST : List Char := ['l', 'i', 's', 't']

/-- The argument head `taint=` (`PRM_FLAGS`). -/
def PRM_FLAGS : List Char := ['t', 'a', 'i', 'n', 't', '=']

/-- The command word `current` (`PRM_CURRENT`). -/
def PRM_CURRENT : List Char := ['c', 'u', 'r', 'r', 'e', 'n', 't']

/-- The exit code computed by `main`: `args` is the argument vector
after the program name, `load` abstracts the outcome of `taint_load`
(only consulted for the `current` command), and `bad_alloc` records
whether an allocation failure interrupts the run (the catch handler
then forces the distinguished exit code). The test that the argument
begins with `taint=` models the comparison of `find(PRM_FLAGS)`
against position 0. -/
def main_exit_code (args : List (List Char)) (load : load_outcome) (bad_alloc : Bool) : Nat :=
  if bad_alloc then EXIT_ERR_MEM_ALLOC
  else
    match args with
    | [cl_param] =>
      if cl_param = PRM_CURRENT then
        if taint_load_rc load then EXIT_NORM else EXIT_ERR_GENERIC
      else if cl_param = PRM_LIST then EXIT_NORM
      else if PRM_FLAGS.isPrefixOf cl_param then EXIT_NORM
      else EXIT_ERR_GENERIC
    | _ => EXIT_ERR_GENERIC

/-- Whether `main` prints the usage text (for a run that is not
interrupted by an allocation failure): it does so exactly when the
argument vector is not a single recognized command. -/
def main_prints_usage (args : List (List Char)) : Bool :=
  match args with
  | [cl_param] =>
    ¬(cl_param = PRM_CURRENT ∨ cl_param = PRM_LIST ∨ PRM_FLAGS.isPrefixOf cl_param = true)
  | _ => true

/-! Helper lemmas. -/

/-- Flag values of table entries are plain powers of two: for shifts
below 64 the 64-bit truncation in `get_flag_value` does nothing. -/
theorem get_flag_value_eq_two_pow (s : Nat) (hs : s < 64) : get_flag_value s = 2 ^ s := by
  rw [get_flag_value, Nat.shiftLeft_eq, one_mul]
  exact Nat.mod_eq_of_lt (Nat.pow_lt_pow_right one_lt_two hs)

/-- The mask test used throughout the program is the bit test. -/
theorem and_flag_iff_testBit (v s : Nat) (hs : s < 64) :
    (v &&& get_flag_value s = get_flag_value s) ↔ v.testBit s = true := by
  rw [get_flag_value_eq_two_pow s hs, Nat.and_two_pow]
  cases h : v.testBit s <;> simp
  exact (Nat.two_pow_pos s).ne

/-- Every shift in the table is below 64. -/
theorem table_shift_lt : ∀ entry ∈ TAINT_FLAGS, entry.flag_shift < 64 := by decide

/-- Every flag value of the table is below 2 to the 18. -/
theorem table_value_lt : ∀ entry ∈ TAINT_FLAGS, get_flag_value entry.flag_shift < 2 ^ 18 := by
  decide

/-- A character matching no entry of a table runs the scan off the
end of that table. -/
theorem scan_unknown (c : Char) : ∀ l : List taint_info,
    (∀ entry ∈ l, c ≠ entry.flag_on_char ∧
      ¬(entry.flag_off_char ≠ SPACER ∧ c = entry.flag_off_char)) →
    scan_entries l c = .unknown := by
  intro l
  induction l with
  | nil => intro _; rfl
  | cons e rest ih =>
    intro h
    obtain ⟨h1, h2⟩ := h e (List.mem_cons_self e rest)
    rw [scan_entries, if_neg h1, if_neg h2]
    exact ih fun x hx => h x (List.mem_cons_of_mem e hx)

/-- A scan that reports a flag value got it from some entry of the
scanned table. -/
theorem scan_setBit_mem (c : Char) : ∀ (l : List taint_info) (v : Nat),
    scan_entries l c = .setBit v → ∃ entry ∈ l, v = get_flag_value entry.flag_shift := by
  intro l
  induction l with
  | nil => intro v h; simp [scan_entries] at h
  | cons e rest ih =>
    intro v h
    rw [scan_entries] at h
    by_cases h1 : c = e.flag_on_char
    · rw [if_pos h1] at h
      injection h with hv
      exact ⟨e, List.mem_cons_self e rest, hv.symm⟩
    · rw [if_neg h1] at h
      by_cases h2 : e.flag_off_char ≠ SPACER ∧ c = e.flag_off_char
      · rw [if_pos h2] at h
        cases h
      · rw [if_neg h2] at h
        obtain ⟨e2, he2, hv⟩ := ih v h
        exact ⟨e2, List.mem_cons_of_mem e he2, hv⟩

/-- The flag value contributed by one query character (zero when the
character sets no flag). -/
def query_char_value (c : Char) : Nat :=
  match scan_entries TAINT_FLAGS (toupper c) with
  | .setBit value => value
  | _ => 0

/-- One step of the accumulation loop ORs the per-character value. -/
theorem step_eq (a : Nat) (c : Char) : taint_query_step a c = a ||| query_char_value c := by
  unfold taint_query_step query_char_value
  cases scan_entries TAINT_FLAGS (toupper c) <;> simp

/-- The accumulation step is right-commutative, so the accumulated
value ignores the order of the query characters. -/
theorem step_right_comm (a : Nat) (c1 c2 : Char) :
    taint_query_step (taint_query_step a c1) c2 = taint_query_step (taint_query_step a c2) c1 := by
  rw [step_eq, step_eq, step_eq, step_eq, Nat.or_assoc, Nat.or_assoc,
    Nat.or_comm (query_char_value c1) (query_char_value c2)]

/-- The accumulation loop keeps the value below 2 to the 18. -/
theorem fold_lt : ∀ (l : List Char) (a : Nat),
    a < 2 ^ 18 → l.foldl taint_query_step a < 2 ^ 18 := by
  intro l
  induction l with
  | nil => intro a h; exact h
  | cons c rest ih =>
    intro a h
    rw [List.foldl_cons]
    apply ih
    unfold taint_query_step
    split
    · rename_i v hs
      obtain ⟨e, he, hv⟩ := scan_setBit_mem (toupper c) TAINT_FLAGS v hs
      exact Nat.or_lt_two_pow h (hv ▸ table_value_lt e he)
    · exact h

/-- Bit 0, once set, survives the rest of the accumulation loop. -/
theorem fold_preserves_bit0 : ∀ (l : List Char) (a : Nat),
    a.testBit 0 = true → (l.foldl taint_query_step a).testBit 0 = true := by
  intro l
  induction l with
  | nil => intro a h; exact h
  | cons c rest ih =>
    intro a h
    rw [List.foldl_cons]
    apply ih
    unfold taint_query_step
    split
    · rename_i v _
      rw [Nat.testBit_lor, h, Bool.true_or]
    · exact h

/-- Scanning the table for the character P reports bit 0. -/
theorem scan_P : scan_entries TAINT_FLAGS 'P' = .setBit 1 := by decide

/-- A query character that uppercases to P sets bit 0 of the
accumulator. -/
theorem fold_sets_bit0 : ∀ (l : List Char) (a : Nat),
    (∃ c ∈ l, toupper c = 'P') → (l.foldl taint_query_step a).testBit 0 = true := by
  intro l
  induction l with
  | nil =>
    rintro a ⟨c, hc, _⟩
    exact absurd hc (List.not_mem_nil c)
  | cons d rest ih =>
    rintro a ⟨c, hc, hup⟩
    rcases List.mem_cons.mp hc with hcd | hmem
    · rw [List.foldl_cons]
      apply fold_preserves_bit0
      unfold taint_query_step
      rw [← hcd, hup, scan_P]
      rw [Nat.testBit_lor]
      simp
    · rw [List.foldl_cons]
      exact ih (taint_query_step a d) ⟨c, hmem, hup⟩

/-- Against a status with bit 0 set, the inner loop of the conflict
pass fires exactly for characters that uppercase to G, and then
reports the single conflicting pair of the table. -/
theorem conflict_inner (status : Nat) (hbit : status.testBit 0 = true) (c : Char) :
    TAINT_FLAGS.filterMap (conflict_check status c) =
      if toupper c = 'G' then [('P', 'G')] else [] := by
  have h1 : status &&& get_flag_value 0 = get_flag_value 0 :=
    (and_flag_iff_testBit status 0 (by omega)).mpr hbit
  by_cases hg : toupper c = 'G'
  · simp +decide [TAINT_FLAGS, conflict_check, SPACER, List.filterMap_cons, hg, h1]
  · simp +decide [TAINT_FLAGS, conflict_check, SPACER, List.filterMap_cons, hg]

/-- Against a status with bit 0 set, the conflict pass emits one
warning per query character that uppercases to G. -/
theorem flatMap_conflict (status : Nat) (hbit : status.testBit 0 = true) :
    ∀ l : List Char,
      (l.flatMap fun c => TAINT_FLAGS.filterMap (conflict_check status c)) =
        (l.filter fun c => toupper c == 'G').map fun _ => ('P', 'G') := by
  intro l
  induction l with
  | nil => rfl
  | cons c rest ih =>
    rw [List.flatMap_cons, conflict_inner status hbit c, List.filter_cons]
    by_cases hg : toupper c = 'G'
    · simp [hg, ih]
    · simp [hg, ih]

/-- A list is a prefix of itself followed by anything. -/
theorem isPrefixOf_self_append (p rest : List Char) : p.isPrefixOf (p ++ rest) = true := by
  induction p with
  | nil => simp [List.isPrefixOf]
  | cons a as ih => simp [List.isPrefixOf, ih]

/-- Looking a digit below 16 up in the alphabet and mapping the
character back recovers the digit. -/
theorem hex_digit_index : ∀ d < 16, HEX_CHARS.indexOf (HEX_CHARS.getD d '0') = d := by decide

/-- Digits below 16 map into the alphabet. -/
theorem hex_digit_mem : ∀ d < 16, HEX_CHARS.getD d '0' ∈ HEX_CHARS := by decide

/-- Invariant of the loop of `print_hex`: with a remainder below 2 to
the 64 and at most 16 pending iterations, the loop produces one
alphabet character per iteration, and the digits denote the top
4 times n bits of the remainder. -/
theorem print_hex_loop_spec : ∀ (n : Nat) (rem : Nat), rem < 2 ^ 64 → n ≤ 16 →
    (print_hex_loop rem n).length = n ∧
    (∀ c ∈ print_hex_loop rem n, c ∈ HEX_CHARS) ∧
    hex_value (print_hex_loop rem n) = rem / 2 ^ (64 - 4 * n) := by
  intro n
  induction n with
  | zero =>
    intro rem h _
    refine ⟨rfl, by simp [print_hex_loop], ?_⟩
    rw [print_hex_loop, hex_value]
    simpa using (Nat.div_eq_of_lt h).symm
  | succ n ih =>
    intro rem h hle
    have h60 : rem >>> 60 = rem / 2 ^ 60 := Nat.shiftRight_eq_div_pow rem 60
    have hd : rem / 2 ^ 60 < 16 := by
      apply Nat.div_lt_of_lt_mul
      calc rem < 2 ^ 64 := h
        _ = 2 ^ 60 * 16 := by norm_num
    have hrem2 : (rem <<< 4) % 2 ^ 64 = rem % 2 ^ 60 * 16 := by
      rw [Nat.shiftLeft_eq]
      have he : (2 : Nat) ^ 64 = 2 ^ 60 * 16 := by norm_num
      have hf : (2 : Nat) ^ 4 = 16 := by norm_num
      rw [hf, he, Nat.mul_mod_mul_right]
    have hlt2 : rem % 2 ^ 60 * 16 < 2 ^ 64 := by
      have := Nat.mod_lt rem (show 0 < 2 ^ 60 by positivity)
      calc rem % 2 ^ 60 * 16 < 2 ^ 60 * 16 := by
            exact Nat.mul_lt_mul_of_lt_of_le this (le_refl 16) (by norm_num)
        _ = 2 ^ 64 := by norm_num
    obtain ⟨hlen, hmem, hval⟩ := ih ((rem <<< 4) % 2 ^ 64) (hrem2 ▸ hlt2) (by omega)
    refine ⟨by rw [print_hex_loop, List.length_cons, hlen], ?_, ?_⟩
    · intro ch hch
      rw [print_hex_loop] at hch
      rcases List.mem_cons.mp hch with hh | ht
      · rw [hh, h60]
        exact hex_digit_mem (rem / 2 ^ 60) hd
      · exact hmem ch ht
    · rw [print_hex_loop, hex_value, hlen, hval, h60, hex_digit_index (rem / 2 ^ 60) hd, hrem2]
      have hk4 : 64 - 4 * n = (60 - 4 * n) + 4 := by omega
      have hk : 64 - 4 * (n + 1) = 60 - 4 * n := by omega
      rw [hk4, hk]
      have hsplit : (2 : Nat) ^ (60 - 4 * n + 4) = 2 ^ (60 - 4 * n) * 16 := by
        rw [pow_add]
        norm_num
      rw [hsplit, Nat.mul_div_mul_right _ _ (show 0 < 16 by norm_num)]
      conv_rhs => rw [← Nat.div_add_mod rem (2 ^ 60)]
      have h60k : (2 : Nat) ^ 60 = 2 ^ (60 - 4 * n) * 2 ^ (4 * n) := by
        rw [← pow_add]
        congr 1
        omega
      rw [h60k, Nat.mul_assoc, Nat.mul_add_div (by positivity)]
      have h16n : (16 : Nat) ^ n = 2 ^ (4 * n) := by
        rw [show (16 : Nat) = 2 ^ 4 by norm_num, ← pow_mul]
      rw [h16n, Nat.mul_comm]

/-! Claim theorems. -/

/-- C1 (counterexample): for input value 0 the renderer does print the
line "(Kernel is not tainted)", but the details list is NOT empty: the
unset-description line of the bit-0 entry is printed, because bit 0
has an off-character and an off-description. -/
theorem analyze_zero_has_detail_line :
    taint_analyze_prints_not_tainted 0 = true ∧ taint_analyze_details 0 ≠ [] := by
  constructor
  · rfl
  · decide

/-- C1 (amended): for input value 0 the renderer prints the line
"(Kernel is not tainted)" and exactly one detail line, the
unset-description line of the bit-0 entry. -/
theorem analyze_zero_report :
    taint_analyze_prints_not_tainted 0 = true ∧
    taint_analyze_details 0 =
      [{ flag_char := 'G', description := "Only GPL modules were loaded",
         value := 1, unset := true }] := by
  constructor
  · rfl
  · decide

/-- C2: the query string pmeol accumulates exactly the bits at
positions 0, 4, 12, 13 and 14, which is the value 28689. -/
theorem query_pmeol_value :
    taint_query_acc ['p', 'm', 'e', 'o', 'l'] = 2 ^ 0 + 2 ^ 4 + 2 ^ 12 + 2 ^ 13 + 2 ^ 14 ∧
    taint_query_acc ['p', 'm', 'e', 'o', 'l'] = 28689 := by
  constructor <;> decide

/-- C3 (counterexample): the query string ggP contains both the
on-character P and the off-character G of the bit-0 entry, yet the
conflict pass emits TWO warnings for that entry, one per occurrence of
the off-character, not exactly one. -/
theorem conflict_double_warning :
    taint_query_acc ['g', 'g', 'P'] = 1 ∧
    taint_query_conflicts ['g', 'g', 'P'] = [('P', 'G'), ('P', 'G')] ∧
    (taint_query_conflicts ['g', 'g', 'P']).length ≠ 1 := by
  refine ⟨by decide, by decide, by decide⟩

/-- C3 (amended): for every query string in which some character
uppercases to P (so bit 0 of the accumulated value is set), the
conflict pass emits exactly one warning, naming the pair P and G, per
occurrence of a character that uppercases to G; the accumulated value
keeps bit 0 set (the set-flag interpretation wins). -/
theorem conflict_per_occurrence (input : List Char)
    (hset : ∃ c ∈ input, toupper c = 'P') :
    (taint_query_acc input).testBit 0 = true ∧
    taint_query_conflicts input =
      (input.filter fun c => toupper c == 'G').map fun _ => ('P', 'G') := by
  have hbit : (taint_query_acc input).testBit 0 = true := fold_sets_bit0 input 0 hset
  refine ⟨hbit, ?_⟩
  rw [taint_query_conflicts]
  exact flatMap_conflict (taint_query_acc input) hbit input

/-- Witness for the amended C3 at the query string Gp. -/
theorem conflict_per_occurrence_witness :
    (∃ c ∈ ['G', 'p'], toupper c = 'P') ∧
    ((taint_query_acc ['G', 'p']).testBit 0 = true ∧
      taint_query_conflicts ['G', 'p'] =
        ((['G', 'p']).filter fun c => toupper c == 'G').map fun _ => ('P', 'G')) :=
  ⟨by decide, conflict_per_occurrence ['G', 'p'] (by decide)⟩

/-- C4: a query character that (after uppercasing) matches neither the
on-character nor the off-character of any table entry leaves the
accumulated value unchanged and contributes exactly one unknown-flag
warning naming that character, wherever it occurs in the query
string; processing of the surrounding characters continues. -/
theorem unknown_char_warning (pre suf : List Char) (c : Char)
    (h : ∀ entry ∈ TAINT_FLAGS, toupper c ≠ entry.flag_on_char ∧
      ¬(entry.flag_off_char ≠ SPACER ∧ toupper c = entry.flag_off_char)) :
    taint_query_acc (pre ++ c :: suf) = taint_query_acc (pre ++ suf) ∧
    taint_query_unknown_warnings (pre ++ c :: suf) =
      taint_query_unknown_warnings pre ++
        toupper c :: taint_query_unknown_warnings suf := by
  have hscan : scan_entries TAINT_FLAGS (toupper c) = .unknown :=
    scan_unknown (toupper c) TAINT_FLAGS h
  constructor
  · rw [taint_query_acc, taint_query_acc, List.foldl_append, List.foldl_append,
      List.foldl_cons]
    have hstep : taint_query_step (List.foldl taint_query_step 0 pre) c =
        List.foldl taint_query_step 0 pre := by
      unfold taint_query_step
      rw [hscan]
    rw [hstep]
  · have hwarn : unknown_warning c = some (toupper c) := by
      unfold unknown_warning
      rw [hscan]
    simp only [taint_query_unknown_warnings]
    rw [List.filterMap_append, List.filterMap_cons, hwarn]

/-- Witness for C4 at the query string pZm: the unknown character Z
between two known characters warns once and changes nothing. -/
theorem unknown_char_warning_witness :
    (∀ entry ∈ TAINT_FLAGS, toupper 'Z' ≠ entry.flag_on_char ∧
      ¬(entry.flag_off_char ≠ SPACER ∧ toupper 'Z' = entry.flag_off_char)) ∧
    (taint_query_acc (['p'] ++ 'Z' :: ['m']) = taint_query_acc (['p'] ++ ['m']) ∧
      taint_query_unknown_warnings (['p'] ++ 'Z' :: ['m']) =
        taint_query_unknown_warnings ['p'] ++
          toupper 'Z' :: taint_query_unknown_warnings ['m']) :=
  ⟨by decide, unknown_char_warning ['p'] ['m'] 'Z' (by decide)⟩

/-- C6: parsing is case-insensitive and idempotent for repeated
characters: the query strings P, p and pp all accumulate exactly
bit 0, the value 1. -/
theorem query_case_idempotent :
    taint_query_acc ['P'] = 1 ∧ taint_query_acc ['p'] = 1 ∧
    taint_query_acc ['p', 'p'] = 1 := by
  refine ⟨by decide, by decide, by decide⟩

/-- C7: for every value, the summary line has exactly one flag
character per table entry, 18 in total: the on-character when the bit
at the entry position is set, otherwise the off-character (the spacer
for entries without an off-character). -/
theorem summary_line_per_entry (v : Nat) :
    (taint_analyze_summary v).length = 18 ∧
    ∀ entry ∈ TAINT_FLAGS, summary_char v entry =
      if v.testBit entry.flag_shift then entry.flag_on_char else entry.flag_off_char := by
  constructor
  · rw [taint_analyze_summary, List.length_map]
    rfl
  · intro entry he
    have hs := table_shift_lt entry he
    by_cases hb : v.testBit entry.flag_shift = true
    · rw [summary_char, if_pos ((and_flag_iff_testBit v entry.flag_shift hs).mpr hb),
        if_pos hb]
    · rw [summary_char, if_neg (fun hc => hb ((and_flag_iff_testBit v entry.flag_shift hs).mp hc)),
        if_neg hb]

/-- C8: for every 64-bit value the hex rendering produces exactly 16
characters of the uppercase hexadecimal alphabet, denoting the value
most-significant nibble first (so it is zero-padded); in particular
the value 1169 renders as 0000000000000491. -/
theorem print_hex_digits (v : Nat) (h : v < 2 ^ 64) :
    (print_hex v).length = 16 ∧
    (∀ c ∈ print_hex v, c ∈ HEX_CHARS) ∧
    hex_value (print_hex v) = v ∧
    print_hex 1169 =
      ['0', '0', '0', '0', '0', '0', '0', '0', '0', '0', '0', '0', '0', '4', '9', '1'] := by
  obtain ⟨h1, h2, h3⟩ := print_hex_loop_spec 16 v h (le_refl 16)
  refine ⟨h1, h2, ?_, by decide⟩
  rw [print_hex, h3]
  norm_num

/-- Witness for C8 at the value 1169. -/
theorem print_hex_digits_witness :
    1169 < 2 ^ 64 ∧
    ((print_hex 1169).length = 16 ∧
      (∀ c ∈ print_hex 1169, c ∈ HEX_CHARS) ∧
      hex_value (print_hex 1169) = 1169 ∧
      print_hex 1169 =
        ['0', '0', '0', '0', '0', '0', '0', '0', '0', '0', '0', '0', '0', '4', '9', '1']) :=
  ⟨by norm_num, print_hex_digits 1169 (by norm_num)⟩

/-- C9: the listing has exactly one set-description line per table
entry, in table order, and a single additional unset-description line,
printed before the set-description line of its entry; the bit-0 entry
is the only one carrying it. -/
theorem list_flags_lines :
    TAINT_FLAGS.length = 18 ∧
    taint_list_lines.length = 19 ∧
    taint_list_lines =
      [ { flag_char := 'G', description := "Only GPL modules were loaded",
          value := 1, unset := true },
        { flag_char := 'P', description := "Proprietary modules were loaded",
          value := 1, unset := false },
        { flag_char := 'F', description := "Module was force loaded (e.g., insmod -f)",
          value := 2, unset := false },
        { flag_char := 'S',
          description := "SMP kernel oops on an officially SMP incapable processor",
          value := 4, unset := false },
        { flag_char := 'R', description := "Module was force unloaded (e.g., rmmod -f)",
          value := 8, unset := false },
        { flag_char := 'M',
          description := "Processor reported a Machine Check Exception (hardware error)",
          value := 16, unset := false },
        { flag_char := 'B',
          description := "Bad memory page referenced, or unexpected page flags encountered (possible hardware error)",
          value := 32, unset := false },
        { flag_char := 'U', description := "Taint requested by a userspace application",
          value := 64, unset := false },
        { flag_char := 'D', description := "Kernel OOPS or BUG triggered taint",
          value := 128, unset := false },
        { flag_char := 'A',
          description := "ACPI Differentiated System Description Table overriden by user",
          value := 256, unset := false },
        { flag_char := 'W', description := "Kernel warning triggered taint",
          value := 512, unset := false },
        { flag_char := 'C', description := "Module from drivers/staging was loaded",
          value := 1024, unset := false },
        { flag_char := 'I',
          description := "Workaround for a bug in platform firmware was applied",
          value := 2048, unset := false },
        { flag_char := 'O',
          description := "Externally-built (out-of-tree) module was loaded",
          value := 4096, unset := false },
        { flag_char := 'E', description := "Unsigned module was loaded",
          value := 8192, unset := false },
        { flag_char := 'L', description := "Soft lockup occurred",
          value := 16384, unset := false },
        { flag_char := 'K', description := "Kernel was live-patched",
          value := 32768, unset := false },
        { flag_char := 'X',
          description := "Auxiliary taint (depending on Linux distribution)",
          value := 65536, unset := false },
        { flag_char := 'T',
          description := "Kernel was built with the struct randomization plugin",
          value := 131072, unset := false } ] := by
  refine ⟨by decide, by decide, by decide⟩

/-- C10: for every query string, the accumulated value only carries
bits at table positions, hence is below 2 to the 18, and it does not
depend on the order of the query characters. -/
theorem query_value_bound_and_order (input input2 : List Char)
    (hperm : input.Perm input2) :
    taint_query_acc input < 2 ^ 18 ∧
    (∀ i, 18 ≤ i → (taint_query_acc input).testBit i = false) ∧
    taint_query_acc input = taint_query_acc input2 := by
  have hlt : taint_query_acc input < 2 ^ 18 := fold_lt input 0 (by norm_num)
  refine ⟨hlt, ?_, ?_⟩
  · intro i hi
    apply Nat.testBit_eq_false_of_lt
    calc taint_query_acc input < 2 ^ 18 := hlt
      _ ≤ 2 ^ i := Nat.pow_le_pow_right (by norm_num) hi
  · haveI : RightCommutative taint_query_step := ⟨step_right_comm⟩
    exact hperm.foldl_eq 0

/-- Witness for C10 at the query strings pm and mp. -/
theorem query_value_bound_and_order_witness :
    (['p', 'm'].Perm ['m', 'p']) ∧
    (taint_query_acc ['p', 'm'] < 2 ^ 18 ∧
      (∀ i, 18 ≤ i → (taint_query_acc ['p', 'm']).testBit i = false) ∧
      taint_query_acc ['p', 'm'] = taint_query_acc ['m', 'p']) :=
  ⟨by decide, query_value_bound_and_order ['p', 'm'] ['m', 'p'] (by decide)⟩

/-- C5: the exit code of the program is 0 for the list command, 0 for
any argument beginning with taint=, 0 for the current command when the
source value loads and 1 when loading fails in any of its three modes,
1 for any other single argument and for a missing or excessive
argument vector (in which cases the usage text is printed), and 2
whenever an allocation failure interrupts the run. -/
theorem main_exit_codes (load : load_outcome) (v : Nat)
    (chars other arg1 arg2 : List Char) (rest : List (List Char))
    (args : List (List Char))
    (hother : other ≠ PRM_CURRENT ∧ other ≠ PRM_LIST ∧ PRM_FLAGS.isPrefixOf other = false) :
    main_exit_code [PRM_LIST] load false = EXIT_NORM ∧
    main_exit_code [PRM_FLAGS ++ chars] load false = EXIT_NORM ∧
    main_exit_code [PRM_CURRENT] (.ok v) false = EXIT_NORM ∧
    main_exit_code [PRM_CURRENT] .openFail false = EXIT_ERR_GENERIC ∧
    main_exit_code [PRM_CURRENT] .readFail false = EXIT_ERR_GENERIC ∧
    main_exit_code [PRM_CURRENT] .parseFail false = EXIT_ERR_GENERIC ∧
    main_exit_code [other] load false = EXIT_ERR_GENERIC ∧
    main_prints_usage [other] = true ∧
    main_exit_code [] load false = EXIT_ERR_GENERIC ∧
    main_prints_usage [] = true ∧
    main_exit_code (arg1 :: arg2 :: rest) load false = EXIT_ERR_GENERIC ∧
    main_exit_code args load true = EXIT_ERR_MEM_ALLOC := by
  obtain ⟨ho1, ho2, ho3⟩ := hother
  refine ⟨by simp +decide [main_exit_code], ?_,
    by simp +decide [main_exit_code, taint_load_rc], by decide, by decide, by decide,
    ?_, ?_, by simp [main_exit_code], by decide, rfl,
    by simp [main_exit_code, EXIT_ERR_MEM_ALLOC]⟩
  · rw [main_exit_code]
    have hne1 : PRM_FLAGS ++ chars ≠ PRM_CURRENT := by
      simp +decide [PRM_FLAGS, PRM_CURRENT]
    have hne2 : PRM_FLAGS ++ chars ≠ PRM_LIST := by
      simp +decide [PRM_FLAGS, PRM_LIST]
    simp [hne1, hne2, isPrefixOf_self_append, EXIT_NORM]
  · rw [main_exit_code]
    simp [ho1, ho2, ho3, EXIT_ERR_GENERIC]
  · rw [main_prints_usage]
    simp [ho1, ho2, ho3]

/-- Witness for C5 with the unrecognized argument x. -/
theorem main_exit_codes_witness :
    (['x'] ≠ PRM_CURRENT ∧ ['x'] ≠ PRM_LIST ∧ PRM_FLAGS.isPrefixOf ['x'] = false) ∧
    (main_exit_code [PRM_LIST] .openFail false = EXIT_NORM ∧
      main_exit_code [PRM_FLAGS ++ ['p']] .openFail false = EXIT_NORM ∧
      main_exit_code [PRM_CURRENT] (.ok 0) false = EXIT_NORM ∧
      main_exit_code [PRM_CURRENT] .openFail false = EXIT_ERR_GENERIC ∧
      main_exit_code [PRM_CURRENT] .readFail false = EXIT_ERR_GENERIC ∧
      main_exit_code [PRM_CURRENT] .parseFail false = EXIT_ERR_GENERIC ∧
      main_exit_code [['x']] .openFail false = EXIT_ERR_GENERIC ∧
      main_prints_usage [['x']] = true ∧
      main_exit_code [] .openFail false = EXIT_ERR_GENERIC ∧
      main_prints_usage [] = true ∧
      main_exit_code ([] :: [] :: []) .openFail false = EXIT_ERR_GENERIC ∧
      main_exit_code [] .openFail true = EXIT_ERR_MEM_ALLOC) :=
  ⟨by decide, main_exit_codes .openFail 0 ['p'] ['x'] [] [] [] [] (by decide)⟩

end TaintInfo
